import Mathlib

/-!
Verification development for a small TCP reverse proxy (Go).

The definitions below are a shallow embedding of the proxy's
connection-lifecycle core:
  * `Conn.Close` (service/conn.go) — idempotent, CAS-guarded close;
  * `addConn` / `delConn` (service/backend.go and the identical frontend
    methods) — registration in a manager's connections map, with the
    cancelled-context special cases;
  * the `closeAll` closure and `sync.Once` latch of
    `frontend.handleNewConnection`;
  * the backend `active` flag as mutated by `createConn` (passive health
    marking) and `runHealthcheck` (active probe);
  * the accept-error classification of `frontend.listenForNewConn`;
  * the bind-retry loop of `frontend.run`;
  * the backend-selection algorithm of `application.createRemoteConnection`
    (modelled from the specification, as application.go is not among the
    available sources).

States are explicit records; the cancellation token is a boolean snapshot of
whether the context's done channel has already fired at the moment the
operation runs; maps are represented by their key lists (the connections map
is keyed by file descriptor).
-/

namespace TcpProxy

/-- State of one connection handle (`Conn` in service/conn.go): the atomic
`closed` flag, plus an instrumentation counter of how many times the
underlying socket was actually closed. -/
structure ConnState where
  closed : Bool
  underlyingCloses : Nat
  deriving DecidableEq, Repr

/-- State effect of `Conn.Close` (service/conn.go): the CAS on `closed`
succeeds only on the first call, and only then is the underlying socket
closed. -/
def connCloseState (c : ConnState) : ConnState :=
  if c.closed then c
  else { closed := true, underlyingCloses := c.underlyingCloses + 1 }

/-- Full `Conn.Close` (service/conn.go lines 29-35): the first call returns
whatever the underlying `net.Conn` close returns (`sockErr`, an environment
parameter; `none` models a nil error), every later call returns nil without
touching the socket. -/
def connClose (sockErr : Option String) (c : ConnState) :
    ConnState × Option String :=
  if c.closed then (c, none)
  else (connCloseState c, sockErr)

/-- Calls `Close` n times in sequence, collecting the returned results in
order. -/
def closeTimes (sockErr : Option String) (c : ConnState) :
    Nat → ConnState × List (Option String)
  | 0 => (c, [])
  | Nat.succ n =>
    let s := connClose sockErr c
    let r := closeTimes sockErr s.1 n
    (r.1, s.2 :: r.2)

/-- Embeds `backend.addConn` (service/backend.go lines 46-56) and the
identical `frontend.addConn`: when the context is already cancelled the
connection is closed; in every case execution then falls through to the map
insertion. `cancelled` is whether `ctx.Done()` has fired, `m` the key list of
the connections map. -/
def addConn (cancelled : Bool) (c : ConnState) (fd : Nat) (m : List Nat) :
    ConnState × List Nat :=
  let c2 := if cancelled then connCloseState c else c
  (c2, if fd ∈ m then m else fd :: m)

/-- Embeds `backend.delConn` (service/backend.go lines 58-68) and the
identical `frontend.delConn`: when the context is already cancelled it
returns at once, otherwise it removes the key from the map. -/
def delConn (cancelled : Bool) (fd : Nat) (m : List Nat) : List Nat :=
  if cancelled then m
  else m.filter (fun x => x != fd)

/-- Joint state of one accepted client/upstream pair inside
`frontend.handleNewConnection`: the two handles, the two managers' maps
(frontend map for the client handle `conn`, chosen backend's map for the
upstream handle `rConn`), the `sync.Once` latch, and a counter of how many
times the `closeAll` closure has actually run. -/
structure PairWorld where
  conn : ConnState
  rConn : ConnState
  frontMap : List Nat
  backMap : List Nat
  onceUsed : Bool
  closeAllRuns : Nat
  deriving DecidableEq, Repr

/-- Embeds the `closeAll` closure of `frontend.handleNewConnection`: close
both handles (idempotently), then deregister both from their managers via
`delConn`. `fCanc` / `bCanc` are whether the frontend's / backend's context
is cancelled at the moment the closure runs. -/
def closeAll (fCanc bCanc : Bool) (connFd rConnFd : Nat) (w : PairWorld) :
    PairWorld :=
  { w with
    conn := connCloseState w.conn
    rConn := connCloseState w.rConn
    frontMap := delConn fCanc connFd w.frontMap
    backMap := delConn bCanc rConnFd w.backMap
    closeAllRuns := w.closeAllRuns + 1 }

/-- Embeds `closeOnce.Do(closeAll)` as performed by a relay goroutine when it
terminates: the first finisher runs `closeAll`, the second finds the latch
used and does nothing. -/
def relayFinish (fCanc bCanc : Bool) (connFd rConnFd : Nat) (w : PairWorld) :
    PairWorld :=
  if w.onceUsed then w
  else closeAll fCanc bCanc connFd rConnFd { w with onceUsed := true }

/-- Concrete fresh handle used in concrete evaluations. -/
def freshConn : ConnState := { closed := false, underlyingCloses := 0 }

/-- Error message produced by a failing underlying socket close, used as a
concrete counterexample input. -/
def sockFailMsg : String := "close tcp: broken pipe"

/-- Concrete pair state just after both handles were registered: both open,
client fd 3 in the frontend map, upstream fd 4 in the backend map, latch
unused. -/
def c2World : PairWorld :=
  { conn := freshConn
    rConn := freshConn
    frontMap := [3]
    backMap := [4]
    onceUsed := false
    closeAllRuns := 0 }

/-- One event affecting a backend's atomic `active` flag: a traffic dial
performed by `backend.createConn`, or a probe dial performed by
`backend.runHealthcheck` (the immediate first check or a ticker check),
each with its success bit. -/
inductive BStep where
  | trafficDial (ok : Bool)
  | probe (ok : Bool)
  deriving DecidableEq, Repr

/-- Effect of one event on the `active` flag, read off service/backend.go:
`createConn` calls `setActive(false)` on dial failure and leaves the flag
alone on success; `runHealthcheck` calls `setActive(err == nil)` after every
probe dial. -/
def stepActive (s : BStep) (a : Bool) : Bool :=
  match s with
  | BStep.trafficDial ok => if ok then a else false
  | BStep.probe ok => ok

/-- Wrap message used by `backend.createConn` on a failed dial. -/
def dialErrMsg : String := "Dial()"

/-- Embeds `backend.createConn` (service/backend.go lines 131-141): on dial
failure it performs passive health marking (`active := false`) and returns a
wrapped dial error; on success it returns the connection and leaves `active`
unchanged. The result pair is the new `active` value and the returned
error/success. -/
def createConn (dialOk : Bool) (a : Bool) : Bool × Except String Unit :=
  if dialOk then (a, Except.ok ())
  else (false, Except.error dialErrMsg)

/-- Initial value of the `active` flag of a backend built by `newBackend`
(service/backend.go lines 28-44): the field is never set there, so it holds
the zero value of `atomic.Bool`, i.e. false. -/
def newBackendActive : Bool := false

/-- The `active` flag after a fresh backend has experienced a sequence of
dial events, oldest first. -/
def runTrace (steps : List BStep) : Bool :=
  steps.foldl (fun a s => stepActive s a) newBackendActive

/-- Decides whether `pat` occurs at the start of `cs`. -/
def charsStartWith : List Char → List Char → Bool
  | [], _ => true
  | _ :: _, [] => false
  | p :: ps, c :: cs => p = c && charsStartWith ps cs

/-- Decides whether `pat` occurs somewhere inside `cs`. -/
def charsContain (pat : List Char) : List Char → Bool
  | [] => charsStartWith pat []
  | c :: cs => charsStartWith pat (c :: cs) || charsContain pat cs

/-- Embeds `strings.Contains` as used by `frontend.listenForNewConn`. -/
def stringContains (s pat : String) : Bool :=
  charsContain pat.toList s.toList

/-- The literal the accept loop matches against the accept error's text. -/
def closedNetMsg : String := "use of closed network connection"

/-- Log levels of the zerolog logger that matter here. -/
inductive LogLevel where
  | debug
  | info
  | warn
  | error
  deriving DecidableEq, Repr

/-- Observable outcome of one erroring iteration of the accept loop: whether
the loop is left, what (if anything) was logged, and how long the iteration
sleeps before the next accept. -/
structure AcceptOutcome where
  exitLoop : Bool
  logged : Option LogLevel
  sleepSec : Nat
  deriving DecidableEq, Repr

/-- Embeds the error handling of `frontend.listenForNewConn` (the frontend
source, lines 107-128): an accept error whose text contains
`closedNetMsg` breaks the loop without logging; any other accept error is
logged at info level and the loop goes straight into the next accept with no
sleep. -/
def acceptErrorStep (msg : String) : AcceptOutcome :=
  if stringContains msg closedNetMsg then
    { exitLoop := true, logged := none, sleepSec := 0 }
  else
    { exitLoop := false, logged := some LogLevel.info, sleepSec := 0 }

/-- One iteration's environment in the bind loop of `frontend.run`: whether
`ctx.Done()` has fired when the loop checks it at the top, and whether
`net.ListenTCP` would succeed on this attempt. -/
structure BindAttempt where
  cancelledNow : Bool
  bindOk : Bool
  deriving DecidableEq, Repr

/-- Observable outcome of the bind loop: whether a bound listener is held on
exit, the sleeps performed (in seconds, one per failed attempt), any error
surfaced to the caller, and whether the loop has exited at all within the
given trace. -/
structure BindOutcome where
  listener : Bool
  sleepsSec : List Nat
  err : Option String
  exited : Bool
  deriving DecidableEq, Repr

/-- Embeds the bind loop of `frontend.run` (the frontend source, lines
73-90), driven by a trace of per-iteration environments: a cancellation
observed at the top of an iteration returns immediately without a listener;
a successful `ListenTCP` stores the listener and breaks; a failed one is
logged, the loop sleeps 5 seconds and retries. An exhausted trace means the
loop is still retrying. No path surfaces an error. -/
def bindLoop : List BindAttempt → BindOutcome
  | [] => { listener := false, sleepsSec := [], err := none, exited := false }
  | a :: rest =>
    if a.cancelledNow then
      { listener := false, sleepsSec := [], err := none, exited := true }
    else if a.bindOk then
      { listener := true, sleepsSec := [], err := none, exited := true }
    else
      let r := bindLoop rest
      { listener := r.listener, sleepsSec := 5 :: r.sleepsSec, err := none,
        exited := r.exited }

/-- Snapshot of one backend as read by the selection algorithm: its
`isActive()` value and its `getConnCount()` value (service/backend.go lines
70-75). -/
structure BackendSnap where
  active : Bool
  connCount : Nat
  deriving DecidableEq, Repr

/-- Modelled from the spec: the selection core of
`application.createRemoteConnection` (application.go is not among the
available sources; spec section 4.4 defines it). Among backends whose
`is_active()` snapshot is true it picks the minimum `connection_count()`,
ties broken by configuration order, first wins; it returns the chosen index
paired with its count, or none when no backend is active. -/
def selectAux : List BackendSnap → Option (Nat × Nat)
  | [] => none
  | b :: rest =>
    match selectAux rest with
    | none => if b.active = true then some (0, b.connCount) else none
    | some (j, c) =>
      if b.active = true ∧ b.connCount ≤ c then some (0, b.connCount)
      else some (j + 1, c)

/-- Modelled from the spec: the index `createRemoteConnection` selects. -/
def selectBackend (bs : List BackendSnap) : Option Nat :=
  (selectAux bs).map (fun p => p.1)

/-- Result of `application.createRemoteConnection` as the accept handler
sees it. -/
inductive CreateResult where
  | noBackend
  | dialError
  | ok (idx : Nat)
  deriving DecidableEq, Repr

/-- Modelled from the spec: `application.createRemoteConnection`
(application.go is not among the available sources; spec section 4.4).
If no backend is active it fails with NoBackend and performs no dial;
otherwise it dials exactly the selected backend once, failing with DialError
when that dial fails, with no retry against another backend. The second
component lists the indices dialled, in order. -/
def createRemoteConnection (bs : List BackendSnap) (dialOk : Nat → Bool) :
    CreateResult × List Nat :=
  match selectBackend bs with
  | none => (CreateResult.noBackend, [])
  | some i =>
    if dialOk i then (CreateResult.ok i, [i])
    else (CreateResult.dialError, [i])

/-- Observable effect of `frontend.handleNewConnection` (the frontend
source, lines 130-186) as a function of the `createRemoteConnection`
result: on failure it logs, closes the accepted client socket and returns,
registering nothing and spawning nothing; on success it registers the two
handles with their managers and spawns the two relay goroutines. -/
structure HandlerOutcome where
  clientClosed : Bool
  registrations : Nat
  relaysSpawned : Nat
  deriving DecidableEq, Repr

/-- Embeds the branching of `frontend.handleNewConnection` on the result of
`createRemoteConnection`. -/
def handleNewConnection : CreateResult → HandlerOutcome
  | CreateResult.noBackend =>
    { clientClosed := true, registrations := 0, relaysSpawned := 0 }
  | CreateResult.dialError =>
    { clientClosed := true, registrations := 0, relaysSpawned := 0 }
  | CreateResult.ok _ =>
    { clientClosed := false, registrations := 2, relaysSpawned := 2 }

/-- Concrete accept-error text of the shutdown path. -/
def closedErrExample : String :=
  "accept tcp 127.0.0.1:7000: use of closed network connection"

/-- Concrete accept-error text of a transient failure. -/
def otherErrExample : String := "accept tcp: too many open files"

/-- Concrete backend snapshots: one inactive, then three active with counts
2, 1, 1 — the least-loaded active backend listed first is index 2. -/
def bs3w : List BackendSnap :=
  [{ active := false, connCount := 0 }, { active := true, connCount := 2 },
   { active := true, connCount := 1 }, { active := true, connCount := 1 }]

/-- Concrete dial environment in which every dial succeeds. -/
def dialAllOk : Nat → Bool := fun _ => true

/-- Concrete backend snapshots with every backend inactive. -/
def bsAllDown : List BackendSnap :=
  [{ active := false, connCount := 0 }, { active := false, connCount := 3 }]

/-- The pair state of `c2World` after both relay goroutines have finished
while neither manager's context is cancelled. -/
def c2After : PairWorld :=
  relayFinish false false 3 4 (relayFinish false false 3 4 c2World)

/-- Concrete dial-event history without any successful probe: a successful
traffic dial, a failed probe, a failed traffic dial. -/
def steps9w : List BStep :=
  [BStep.trafficDial true, BStep.probe false, BStep.trafficDial false]

/-- Concrete bind-loop iteration: not cancelled, bind fails. -/
def attemptFail : BindAttempt := { cancelledNow := false, bindOk := false }

/-- Concrete bind-loop iteration: not cancelled, bind succeeds. -/
def attemptOk : BindAttempt := { cancelledNow := false, bindOk := true }

/-- Concrete all-failure bind trace of length two. -/
def trace8w : List BindAttempt := [attemptFail, attemptFail]

end TcpProxy

namespace TcpProxy

/-- Helper: a key never survives the filter `delConn` applies. -/
theorem not_mem_delConn_self (fd : Nat) (m : List Nat) :
    fd ∉ delConn false fd m := by
  simp [delConn, List.mem_filter]

/-- Helper: closing an already-closed handle is a no-op returning nil. -/
theorem connClose_closed (sockErr : Option String) (c : ConnState)
    (h : c.closed = true) : connClose sockErr c = (c, none) := by
  simp [connClose, h]

/-- Helper: closing times an already-closed handle never touches the socket
and returns nil every time. -/
theorem closeTimes_closed (sockErr : Option String) (c : ConnState)
    (h : c.closed = true) :
    ∀ n, closeTimes sockErr c n = (c, List.replicate n none) := by
  intro n
  induction n with
  | zero => simp [closeTimes]
  | succ n ih =>
    simp [closeTimes, connClose_closed sockErr c h, ih, List.replicate]

/-- C1: `addConn` called on a manager whose context is already cancelled does
close the handle, but — contrary to the claim — it still inserts the handle
into the connections map: with a fresh handle of fd 7 and an empty map, the
result is a closed handle and the map `[7]`. -/
theorem claim1_addConn_cancelled_closes_and_inserts :
    (addConn true freshConn 7 []).1.closed = true ∧
    (addConn true freshConn 7 []).1.underlyingCloses = 1 ∧
    (addConn true freshConn 7 []).2 = [7] := by
  decide

/-- C4 counterexample: when the underlying socket close itself fails, the
first `Close` call propagates that error, so a single call already returns an
error result, refuting that all N calls return a non-error result. -/
theorem claim4_counterexample :
    (closeTimes (some sockFailMsg) freshConn 1).2 = [some sockFailMsg] ∧
    some sockFailMsg ≠ (none : Option String) := by
  decide

/-- C4 (amended): calling `Close` n ≥ 1 times on a fresh handle closes the
underlying socket exactly once (on the first call); the first call returns
the underlying close's result and every subsequent call is a no-op returning
nil. -/
theorem claim4_idempotent_close (sockErr : Option String) (n : Nat)
    (hn : 1 ≤ n) :
    (closeTimes sockErr freshConn n).1.underlyingCloses = 1 ∧
    (closeTimes sockErr freshConn n).1.closed = true ∧
    (closeTimes sockErr freshConn n).2 =
      sockErr :: List.replicate (n - 1) none := by
  obtain ⟨m, rfl⟩ : ∃ m, n = m + 1 := ⟨n - 1, (Nat.succ_pred_eq_of_pos hn).symm⟩
  have hstep : connClose sockErr freshConn =
      ({ closed := true, underlyingCloses := 1 }, sockErr) := by
    simp [connClose, connCloseState, freshConn]
  have hrest := closeTimes_closed sockErr
    { closed := true, underlyingCloses := 1 } rfl m
  simp [closeTimes, hstep, hrest]

/-- C4 witness: three closes of a fresh handle whose underlying close
succeeds. -/
theorem claim4_witness :
    (closeTimes none freshConn 3).1.underlyingCloses = 1 ∧
    (closeTimes none freshConn 3).1.closed = true ∧
    (closeTimes none freshConn 3).2 = none :: List.replicate 2 none :=
  claim4_idempotent_close none 3 (by decide)

/-- C10: `delConn` on a manager whose context is already cancelled is a no-op
that leaves the connections map unchanged, so a handle deregistered after
shutdown begins remains in the map. -/
theorem claim10_delConn_cancelled_noop (fd : Nat) (m : List Nat)
    (hm : fd ∈ m) :
    delConn true fd m = m ∧ fd ∈ delConn true fd m := by
  refine ⟨rfl, ?_⟩
  simpa [delConn] using hm

/-- C10 witness: fd 5 stays in the map `[5, 9]` when deregistered after
cancellation. -/
theorem claim10_witness :
    delConn true 5 [5, 9] = [5, 9] ∧ 5 ∈ delConn true 5 [5, 9] :=
  claim10_delConn_cancelled_noop 5 [5, 9] (by decide)

/-- C2 counterexample: for the pair of `c2World` (client fd 3 registered with
the frontend, upstream fd 4 with the backend) whose relay goroutines finish
after the context is cancelled, both handles remain in their managers' maps
after both terminations, because `closeAll` deregisters through the
cancelled-context no-op branch of `delConn`. -/
theorem claim2_counterexample :
    3 ∈ (relayFinish true true 3 4 (relayFinish true true 3 4 c2World)).frontMap ∧
    4 ∈ (relayFinish true true 3 4 (relayFinish true true 3 4 c2World)).backMap := by
  decide

/-- C2 (amended): for every accepted pair whose managers' contexts are not
cancelled when the relay goroutines terminate, the shared `closeAll` runs
exactly once under the once-latch, both handles get exactly one underlying
close, and both fds are deregistered from their managers' maps. -/
theorem claim2_pair_teardown (fCanc bCanc : Bool) (connFd rConnFd : Nat)
    (w w2 : PairWorld) (hf : fCanc = false) (hb : bCanc = false)
    (ho : w.onceUsed = false) (hc : w.conn.closed = false)
    (hr : w.rConn.closed = false)
    (hw2 : w2 = relayFinish fCanc bCanc connFd rConnFd
      (relayFinish fCanc bCanc connFd rConnFd w)) :
    w2.closeAllRuns = w.closeAllRuns + 1 ∧
    w2.conn.closed = true ∧
    w2.conn.underlyingCloses = w.conn.underlyingCloses + 1 ∧
    w2.rConn.closed = true ∧
    w2.rConn.underlyingCloses = w.rConn.underlyingCloses + 1 ∧
    connFd ∉ w2.frontMap ∧ rConnFd ∉ w2.backMap := by
  subst hf hb hw2
  refine ⟨?_, ?_, ?_, ?_, ?_, ?_, ?_⟩ <;>
    simp [relayFinish, closeAll, ho, connCloseState, hc, hr, delConn,
      List.mem_filter]

/-- C2 witness: the concrete pair of `c2World` torn down before any
cancellation. -/
theorem claim2_witness :
    c2After.closeAllRuns = c2World.closeAllRuns + 1 ∧
    c2After.conn.closed = true ∧
    c2After.conn.underlyingCloses = c2World.conn.underlyingCloses + 1 ∧
    c2After.rConn.closed = true ∧
    c2After.rConn.underlyingCloses = c2World.rConn.underlyingCloses + 1 ∧
    3 ∉ c2After.frontMap ∧ 4 ∉ c2After.backMap :=
  claim2_pair_teardown false false 3 4 c2World c2After rfl rfl (by decide)
    (by decide) (by decide) rfl

/-- C5: a failed traffic dial sets `active` to false and returns the wrapped
dial error; a successful traffic dial returns success and leaves `active`
exactly as it was (in particular it never sets it to true); `createConn`'s
effect on the flag is that of a trafficDial event; and the only event that
takes the flag from false to true is a successful health-probe dial. -/
theorem claim5_passive_marking (a ok : Bool) (s : BStep)
    (hs : stepActive s false = true) :
    createConn false a = (false, Except.error dialErrMsg) ∧
    createConn true a = (a, Except.ok ()) ∧
    (createConn ok a).1 = stepActive (BStep.trafficDial ok) a ∧
    s = BStep.probe true := by
  refine ⟨by simp [createConn], by simp [createConn], ?_, ?_⟩
  · cases ok <;> simp [createConn, stepActive]
  · cases s with
    | trafficDial ok2 => cases ok2 <;> simp [stepActive] at hs
    | probe ok2 =>
      cases ok2
      · simp [stepActive] at hs
      · rfl

/-- C5 witness: an inactive backend, a failed traffic dial, and the
flag-raising event instantiated as a successful probe. -/
theorem claim5_witness :
    createConn false false = (false, Except.error dialErrMsg) ∧
    createConn true false = (false, Except.ok ()) ∧
    (createConn false false).1 = stepActive (BStep.trafficDial false) false ∧
    BStep.probe true = BStep.probe true :=
  claim5_passive_marking false false (BStep.probe true) (by decide)

/-- Helper: an event other than a successful probe keeps the flag false. -/
theorem stepActive_false_of_ne (s : BStep) (h : s ≠ BStep.probe true) :
    stepActive s false = false := by
  cases s with
  | trafficDial ok => cases ok <;> simp [stepActive]
  | probe ok =>
    cases ok
    · simp [stepActive]
    · exact absurd rfl h

/-- Helper: a fold of `stepActive` starting at false stays false as long as
no successful probe occurs. -/
theorem foldl_stepActive_false :
    ∀ steps : List BStep, (∀ s ∈ steps, s ≠ BStep.probe true) →
      steps.foldl (fun a s => stepActive s a) false = false := by
  intro steps
  induction steps with
  | nil => intro _; rfl
  | cons s rest ih =>
    intro h
    have hs : stepActive s false = false :=
      stepActive_false_of_ne s (h s (by simp))
    simp only [List.foldl_cons, hs]
    exact ih (fun x hx => h x (by simp [hx]))

/-- C7: an accept error whose text contains the closed-listener literal
breaks the accept loop with nothing logged; every other accept error is
logged at info level (so not at error level) and the loop goes straight into
the next accept with no backoff sleep. -/
theorem claim7_accept_error_classes (msg : String) :
    (stringContains msg closedNetMsg = true →
      acceptErrorStep msg =
        { exitLoop := true, logged := none, sleepSec := 0 }) ∧
    (stringContains msg closedNetMsg = false →
      acceptErrorStep msg =
        { exitLoop := false, logged := some LogLevel.info, sleepSec := 0 } ∧
      (acceptErrorStep msg).logged ≠ some LogLevel.error ∧
      (acceptErrorStep msg).sleepSec = 0) := by
  constructor
  · intro h
    simp [acceptErrorStep, h]
  · intro h
    refine ⟨by simp [acceptErrorStep, h], by simp [acceptErrorStep, h], ?_⟩
    simp [acceptErrorStep, h]

/-- C7 witness: the shutdown-path accept error and a transient accept
error, classified. -/
theorem claim7_witness :
    acceptErrorStep closedErrExample =
      { exitLoop := true, logged := none, sleepSec := 0 } ∧
    (acceptErrorStep otherErrExample =
      { exitLoop := false, logged := some LogLevel.info, sleepSec := 0 } ∧
      (acceptErrorStep otherErrExample).logged ≠ some LogLevel.error ∧
      (acceptErrorStep otherErrExample).sleepSec = 0) :=
  ⟨(claim7_accept_error_classes closedErrExample).1 (by decide),
   (claim7_accept_error_classes otherErrExample).2 (by decide)⟩

/-- Helper: the bind loop never surfaces an error, on any trace. -/
theorem bindLoop_err_none : ∀ t : List BindAttempt, (bindLoop t).err = none := by
  intro t
  induction t with
  | nil => rfl
  | cons a rest ih =>
    cases hc : a.cancelledNow
    · cases hb : a.bindOk
      · simp [bindLoop, hc, hb]
      · simp [bindLoop, hc, hb]
    · simp [bindLoop, hc]

/-- Helper: on a trace of uncancelled failed attempts the bind loop is still
retrying: no listener, no exit, no surfaced error, and one 5-second sleep per
attempt. -/
theorem bindLoop_allFail :
    ∀ t : List BindAttempt,
      (∀ x ∈ t, x.cancelledNow = false ∧ x.bindOk = false) →
      bindLoop t =
        { listener := false, sleepsSec := List.replicate t.length 5,
          err := none, exited := false } := by
  intro t
  induction t with
  | nil => intro _; rfl
  | cons a rest ih =>
    intro h
    obtain ⟨hc, hb⟩ := h a (by simp)
    have hrest := ih (fun x hx => h x (by simp [hx]))
    simp [bindLoop, hc, hb, hrest, List.replicate_succ]

/-- C8: the bind loop of the frontend checks cancellation at the top of each
iteration and a cancellation observed there exits at once without a
listener; a successful bind stores the listener and exits; a failed bind
sleeps 5 seconds and retries; a trace made only of uncancelled failed
attempts leaves the loop still retrying with one 5-second sleep per failure;
and no trace ever surfaces the bind error. -/
theorem claim8_bind_retry (a : BindAttempt) (rest t : List BindAttempt)
    (hfail : ∀ x ∈ t, x.cancelledNow = false ∧ x.bindOk = false) :
    (a.cancelledNow = true →
      bindLoop (a :: rest) =
        { listener := false, sleepsSec := [], err := none, exited := true }) ∧
    (a.cancelledNow = false → a.bindOk = true →
      bindLoop (a :: rest) =
        { listener := true, sleepsSec := [], err := none, exited := true }) ∧
    (a.cancelledNow = false → a.bindOk = false →
      bindLoop (a :: rest) =
        { listener := (bindLoop rest).listener,
          sleepsSec := 5 :: (bindLoop rest).sleepsSec, err := none,
          exited := (bindLoop rest).exited }) ∧
    bindLoop t =
      { listener := false, sleepsSec := List.replicate t.length 5,
        err := none, exited := false } ∧
    (bindLoop rest).err = none := by
  refine ⟨?_, ?_, ?_, bindLoop_allFail t hfail, bindLoop_err_none rest⟩
  · intro hc
    simp [bindLoop, hc]
  · intro hc hb
    simp [bindLoop, hc, hb]
  · intro hc hb
    simp [bindLoop, hc, hb]

/-- C8 witness: a failing uncancelled attempt followed by a successful one,
against an all-failure trace of length two. -/
theorem claim8_witness :
    (attemptFail.cancelledNow = true →
      bindLoop (attemptFail :: [attemptOk]) =
        { listener := false, sleepsSec := [], err := none, exited := true }) ∧
    (attemptFail.cancelledNow = false → attemptFail.bindOk = true →
      bindLoop (attemptFail :: [attemptOk]) =
        { listener := true, sleepsSec := [], err := none, exited := true }) ∧
    (attemptFail.cancelledNow = false → attemptFail.bindOk = false →
      bindLoop (attemptFail :: [attemptOk]) =
        { listener := (bindLoop [attemptOk]).listener,
          sleepsSec := 5 :: (bindLoop [attemptOk]).sleepsSec, err := none,
          exited := (bindLoop [attemptOk]).exited }) ∧
    bindLoop trace8w =
      { listener := false, sleepsSec := List.replicate trace8w.length 5,
        err := none, exited := false } ∧
    (bindLoop [attemptOk]).err = none :=
  claim8_bind_retry attemptFail [attemptOk] trace8w (by decide)

/-- Helper: a none result of the selection core means no backend is
active. -/
theorem selectAux_none :
    ∀ bs : List BackendSnap, selectAux bs = none → ∀ b ∈ bs, b.active = false := by
  intro bs
  induction bs with
  | nil =>
    intro _ b hb
    cases hb
  | cons b rest ih =>
    intro h x hx
    cases hr : selectAux rest with
    | none =>
      simp only [selectAux, hr] at h
      by_cases hb2 : b.active = true
      · simp [hb2] at h
      · rcases List.mem_cons.mp hx with hxb | hxr
        · subst hxb
          simpa using hb2
        · exact ih hr x hxr
    | some p =>
      rcases p with ⟨j, c⟩
      simp only [selectAux, hr] at h
      by_cases hcond : b.active = true ∧ b.connCount ≤ c
      · simp [hcond] at h
      · simp [hcond] at h

/-- Helper: when every backend is inactive the selection core returns
none. -/
theorem selectAux_none_of_all_inactive :
    ∀ bs : List BackendSnap, (∀ b ∈ bs, b.active = false) →
      selectAux bs = none := by
  intro bs
  induction bs with
  | nil => intro _; rfl
  | cons b rest ih =>
    intro h
    have hb := h b (by simp)
    have hr := ih (fun x hx => h x (by simp [hx]))
    simp [selectAux, hr, hb]

/-- Helper: a some result of the selection core names an active backend of
minimal connection count among the active ones, strictly smaller than that
of every active backend listed earlier. -/
theorem selectAux_some :
    ∀ (bs : List BackendSnap) (j c : Nat), selectAux bs = some (j, c) →
      ∃ hj : j < bs.length,
        (bs.get ⟨j, hj⟩).active = true ∧
        (bs.get ⟨j, hj⟩).connCount = c ∧
        ∀ k, ∀ hk : k < bs.length, (bs.get ⟨k, hk⟩).active = true →
          c ≤ (bs.get ⟨k, hk⟩).connCount ∧
          (k < j → c < (bs.get ⟨k, hk⟩).connCount) := by
  intro bs
  induction bs with
  | nil =>
    intro j c h
    exact Option.noConfusion h
  | cons b rest ih =>
    intro j c h
    cases hr : selectAux rest with
    | none =>
      simp only [selectAux, hr] at h
      by_cases hb2 : b.active = true
      · rw [if_pos hb2] at h
        simp only [Option.some.injEq, Prod.mk.injEq] at h
        obtain ⟨hj, hc⟩ := h
        subst hj
        subst hc
        refine ⟨Nat.succ_pos _, hb2, rfl, ?_⟩
        intro k hk hka
        cases k with
        | zero =>
          exact ⟨Nat.le_refl _, fun hlt => absurd hlt (Nat.not_lt_zero _)⟩
        | succ k2 =>
          have hk2 : k2 < rest.length := Nat.lt_of_succ_lt_succ hk
          have hoff := selectAux_none rest hr (rest.get ⟨k2, hk2⟩)
            (List.get_mem rest k2 hk2)
          have hka2 : (rest.get ⟨k2, hk2⟩).active = true := hka
          rw [hoff] at hka2
          exact absurd hka2 (by simp)
      · rw [if_neg hb2] at h
        exact Option.noConfusion h
    | some p =>
      rcases p with ⟨j0, c0⟩
      obtain ⟨hj0, hact0, hcnt0, hmin0⟩ := ih j0 c0 hr
      simp only [selectAux, hr] at h
      by_cases hcond : b.active = true ∧ b.connCount ≤ c0
      · rw [if_pos hcond] at h
        simp only [Option.some.injEq, Prod.mk.injEq] at h
        obtain ⟨hj, hc⟩ := h
        subst hj
        subst hc
        refine ⟨Nat.succ_pos _, hcond.1, rfl, ?_⟩
        intro k hk hka
        cases k with
        | zero =>
          exact ⟨Nat.le_refl _, fun hlt => absurd hlt (Nat.not_lt_zero _)⟩
        | succ k2 =>
          have hk2 : k2 < rest.length := Nat.lt_of_succ_lt_succ hk
          have h1 := hmin0 k2 hk2 hka
          exact ⟨Nat.le_trans hcond.2 h1.1,
            fun hlt => absurd hlt (Nat.not_lt_zero _)⟩
      · rw [if_neg hcond] at h
        simp only [Option.some.injEq, Prod.mk.injEq] at h
        obtain ⟨hj, hc⟩ := h
        subst hj
        subst hc
        refine ⟨Nat.succ_lt_succ hj0, hact0, hcnt0, ?_⟩
        intro k hk hka
        cases k with
        | zero =>
          have hnle : ¬ b.connCount ≤ c0 := fun hle => hcond ⟨hka, hle⟩
          have hgt : c0 < b.connCount := Nat.not_le.mp hnle
          exact ⟨Nat.le_of_lt hgt, fun _ => hgt⟩
        | succ k2 =>
          have hk2 : k2 < rest.length := Nat.lt_of_succ_lt_succ hk
          have h1 := hmin0 k2 hk2 hka
          exact ⟨h1.1, fun hlt => h1.2 (Nat.lt_of_succ_lt_succ hlt)⟩

/-- C3: with at least one active backend in the snapshot, the selection of
createRemoteConnection returns an index of an active backend whose
connection count is the minimum over all active backends, strictly below
that of every active backend listed earlier in configuration order (ties go
to the first), and the subsequent dial targets exactly that index. -/
theorem claim3_selection (bs : List BackendSnap) (dialOk : Nat → Bool)
    (k0 : Nat) (hk0 : k0 < bs.length)
    (hact : (bs.get ⟨k0, hk0⟩).active = true) :
    ∃ i, ∃ hi : i < bs.length,
      selectBackend bs = some i ∧
      (createRemoteConnection bs dialOk).2 = [i] ∧
      (bs.get ⟨i, hi⟩).active = true ∧
      (∀ k, ∀ hk : k < bs.length, (bs.get ⟨k, hk⟩).active = true →
        (bs.get ⟨i, hi⟩).connCount ≤ (bs.get ⟨k, hk⟩).connCount) ∧
      (∀ k, ∀ hk : k < bs.length, k < i → (bs.get ⟨k, hk⟩).active = true →
        (bs.get ⟨i, hi⟩).connCount < (bs.get ⟨k, hk⟩).connCount) := by
  cases hsel : selectAux bs with
  | none =>
    have hall := selectAux_none bs hsel (bs.get ⟨k0, hk0⟩)
      (List.get_mem bs k0 hk0)
    rw [hall] at hact
    exact absurd hact (by simp)
  | some p =>
    rcases p with ⟨j, c⟩
    obtain ⟨hj, hactj, hcntj, hmin⟩ := selectAux_some bs j c hsel
    refine ⟨j, hj, ?_, ?_, hactj, ?_, ?_⟩
    · simp [selectBackend, hsel]
    · cases hd : dialOk j <;>
        simp [createRemoteConnection, selectBackend, hsel, hd]
    · intro k hk hka
      rw [hcntj]
      exact (hmin k hk hka).1
    · intro k hk hkj hka
      rw [hcntj]
      exact (hmin k hk hka).2 hkj

/-- C3 witness: among snapshots inactive, active with 2, active with 1,
active with 1, index 2 is selected and dialled. -/
theorem claim3_witness :
    ∃ i, ∃ hi : i < bs3w.length,
      selectBackend bs3w = some i ∧
      (createRemoteConnection bs3w dialAllOk).2 = [i] ∧
      (bs3w.get ⟨i, hi⟩).active = true ∧
      (∀ k, ∀ hk : k < bs3w.length, (bs3w.get ⟨k, hk⟩).active = true →
        (bs3w.get ⟨i, hi⟩).connCount ≤ (bs3w.get ⟨k, hk⟩).connCount) ∧
      (∀ k, ∀ hk : k < bs3w.length, k < i → (bs3w.get ⟨k, hk⟩).active = true →
        (bs3w.get ⟨i, hi⟩).connCount < (bs3w.get ⟨k, hk⟩).connCount) :=
  claim3_selection bs3w dialAllOk 1 (by decide) (by decide)

/-- C6: when every backend in the snapshot is inactive,
createRemoteConnection fails with NoBackend and performs no dial, and the
accept handler receiving that failure closes the accepted client socket,
registers no handle and spawns no relay. -/
theorem claim6_no_backend (bs : List BackendSnap) (dialOk : Nat → Bool)
    (h : ∀ b ∈ bs, b.active = false) :
    createRemoteConnection bs dialOk = (CreateResult.noBackend, []) ∧
    handleNewConnection (createRemoteConnection bs dialOk).1 =
      { clientClosed := true, registrations := 0, relaysSpawned := 0 } := by
  have hnone := selectAux_none_of_all_inactive bs h
  constructor
  · simp [createRemoteConnection, selectBackend, hnone]
  · simp [createRemoteConnection, selectBackend, hnone, handleNewConnection]

/-- C6 witness: two inactive backends. -/
theorem claim6_witness :
    createRemoteConnection bsAllDown dialAllOk = (CreateResult.noBackend, []) ∧
    handleNewConnection (createRemoteConnection bsAllDown dialAllOk).1 =
      { clientClosed := true, registrations := 0, relaysSpawned := 0 } :=
  claim6_no_backend bsAllDown dialAllOk (by decide)

/-- C9: a backend constructed by newBackend starts with active = false and,
as long as its event history contains no successful health-probe dial, its
active flag stays false; and the selection only ever returns the index of a
backend whose active snapshot is true, so such a backend is never
selected. -/
theorem claim9_fresh_inactive (steps : List BStep) (bs : List BackendSnap)
    (i : Nat) (hsteps : ∀ s ∈ steps, s ≠ BStep.probe true)
    (hsel : selectBackend bs = some i) :
    runTrace steps = false ∧
    ∃ hi : i < bs.length, (bs.get ⟨i, hi⟩).active = true := by
  constructor
  · exact foldl_stepActive_false steps hsteps
  · cases hsa : selectAux bs with
    | none => simp [selectBackend, hsa] at hsel
    | some p =>
      rcases p with ⟨j, c⟩
      obtain ⟨hj, hactj, _, _⟩ := selectAux_some bs j c hsa
      have hij : j = i := by simpa [selectBackend, hsa] using hsel
      subst hij
      exact ⟨hj, hactj⟩

/-- C9 witness: a history of a successful traffic dial, a failed probe and a
failed traffic dial keeps the flag false, and the concrete selection picks
an active backend. -/
theorem claim9_witness :
    runTrace steps9w = false ∧
    ∃ hi : 2 < bs3w.length, (bs3w.get ⟨2, hi⟩).active = true :=
  claim9_fresh_inactive steps9w bs3w 2 (by decide) (by decide)

end TcpProxy
